import Mathlib

/-!
Shallow embedding of `src/main.py` (vrc_notifier): a VRChat group-instance
watcher that logs in with TOTP-based 2FA, polls the group-instances endpoint
every 60 seconds, and posts a Discord webhook notification when the latest
instance id changes.  Network I/O is modelled by explicit environments
(response traces); the process-wide mutable globals `last_instance_id` and
`vrc_client` are threaded as explicit state.
-/

namespace VrcNotifier

/-- An authenticated VRChat session handle (`httpx.AsyncClient` in the
source).  Handles are abstract; we only need identity, so a `Nat` tag. -/
abbrev Session := Nat

/-- The nested `world` object of a group-instance record
(`instance["world"]` in `src/main.py`).  Fields the code reads with
`.get` are `Option`s, `none` meaning the key is absent. -/
structure WorldInfo where
  id : Option String := none
  name : Option String := none
  authorName : Option String := none
  thumbnailImageUrl : Option String := none
  deriving DecidableEq, Repr

/-- A group-instance record as consumed by `notify_discord` and
`startup_event`.  `instanceId` is accessed with `latest["instanceId"]`
(required); the other fields are read with `.get` and may be absent. -/
structure GroupInstance where
  instanceId : String
  location : Option String := none
  memberCount : Option Int := none
  world : Option WorldInfo := none
  deriving DecidableEq, Repr

/-- Python renders `None` as the string "None" inside an f-string; this is
how `world.get('id')` and absent keys appear in the deep-link URL. -/
def pyStr : Option String → String
  | some s => s
  | none => "None"

/-- The Discord embed built by `notify_discord` (src/main.py lines
110-125).  `color` is the pastel colour computed from a random hue; we take
it as an input since it does not affect control flow. -/
structure Embed where
  title : String
  description : String
  thumbnailUrl : String
  color : Nat
  deriving DecidableEq, Repr

/-- `notify_discord`'s embed construction: `world = instance.get("world", {})`,
then the f-string description with fallbacks 不明 / "?" / 不明 and the
launch URL built from `world.get('id')` and `instance.get('instanceId')`. -/
def buildEmbed (inst : GroupInstance) (color : Nat) : Embed :=
  let world := inst.world.getD {}
  { title := "🎉 新しいグループインスタンスが立ったよ！"
    description :=
      "**ワールド名:** " ++ world.name.getD "不明" ++ "\n" ++
      "**人数:** " ++ (match inst.memberCount with
                       | some n => toString n
                       | none => "?") ++ "人\n" ++
      "**Location:** `" ++ inst.location.getD "不明" ++ "`\n" ++
      "[VRChatで開く](https://vrchat.com/home/launch?worldId=" ++
        pyStr world.id ++ "&instanceId=" ++ inst.instanceId ++ ")"
    thumbnailUrl := (world.thumbnailImageUrl.getD "")
    color := color }

/-- Python truthiness of the `DISCORD_WEBHOOK_URL` value:
`if not DISCORD_WEBHOOK_URL` fires when the variable is unset (`None`)
or the empty string. -/
def webhookFalsy : Option String → Bool
  | none => true
  | some s => s = ""

/-- Result of one call to `notify_discord`: either the early return when no
webhook URL is configured (zero outbound calls), a successful POST of the
embed, or a POST that raised a network error carrying message `msg`. -/
inductive NotifyOutcome where
  | skippedNoWebhook
  | delivered (payload : Embed)
  | deliveryFailed (payload : Embed) (msg : String)
  deriving DecidableEq, Repr

/-- `notify_discord` (src/main.py lines 105-128).  `deliveryRaise = some m`
models the outbound `client.post` raising a network error with message `m`;
`none` models a completed POST (httpx does not raise on non-2xx statuses
without `raise_for_status`). -/
def notify_discord (webhookUrl : Option String) (inst : GroupInstance)
    (color : Nat) (deliveryRaise : Option String) : NotifyOutcome :=
  if webhookFalsy webhookUrl then
    NotifyOutcome.skippedNoWebhook
  else
    let e := buildEmbed inst color
    match deliveryRaise with
    | some m => NotifyOutcome.deliveryFailed e m
    | none => NotifyOutcome.delivered e

/-- Which webhook POST call, if any, a `NotifyOutcome` implies was made
(the POST is made even when it raises). -/
def NotifyOutcome.posted : NotifyOutcome → Option Embed
  | skippedNoWebhook => none
  | delivered e => some e
  | deliveryFailed e _ => some e

/-- What one tick of `startup_event` prints on its terminal path. -/
inductive CycleLog where
  | noInstances
  | notified
  | noChange
  | errorCaught (msg : String)
  deriving DecidableEq, Repr

/-- Result of the `get_group_instances()` call as seen by `startup_event`:
either a parsed list of records or a raised exception with message `msg`. -/
inductive FetchOutcome where
  | ok (instances : List GroupInstance)
  | raised (msg : String)
  deriving DecidableEq, Repr

/-- Outcome of one tick of `startup_event`: the value of the global
`last_instance_id` afterwards, the log line of the path taken, and the
webhook POST that was made during the tick, if any. -/
structure CycleResult where
  state : Option String
  log : CycleLog
  posted : Option Embed
  deriving DecidableEq, Repr

/-- One tick of `startup_event` (src/main.py lines 135-153).  `last` is the
global `last_instance_id` on entry.  Faithful ordering: `await
notify_discord(latest)` runs before `last_instance_id = current_id`, so a
raised delivery error propagates to the `except` block and skips the
assignment. -/
def startup_event (webhookUrl : Option String) (last : Option String)
    (fetch : FetchOutcome) (color : Nat) (deliveryRaise : Option String) :
    CycleResult :=
  match fetch with
  | FetchOutcome.raised msg => ⟨last, CycleLog.errorCaught msg, none⟩
  | FetchOutcome.ok instances =>
    match instances with
    | [] => ⟨last, CycleLog.noInstances, none⟩
    | latest :: _ =>
      let currentId := latest.instanceId
      if some currentId ≠ last then
        match notify_discord webhookUrl latest color deliveryRaise with
        | NotifyOutcome.deliveryFailed e m =>
          ⟨last, CycleLog.errorCaught m, some e⟩
        | NotifyOutcome.delivered e =>
          ⟨some currentId, CycleLog.notified, some e⟩
        | NotifyOutcome.skippedNoWebhook =>
          ⟨some currentId, CycleLog.notified, none⟩
      else ⟨last, CycleLog.noChange, none⟩

/-- The per-tick environment for a run of several scheduler ticks: the
fetch result, the random colour, and whether the webhook POST raises. -/
structure CycleInput where
  fetch : FetchOutcome
  color : Nat
  deliveryRaise : Option String
  deriving Repr

/-- Run `startup_event` over a list of tick environments, threading the
global `last_instance_id`; returns the final state and each tick's result. -/
def runCycles (webhookUrl : Option String) (last : Option String) :
    List CycleInput → Option String × List CycleResult
  | [] => (last, [])
  | i :: is =>
    let r := startup_event webhookUrl last i.fetch i.color i.deliveryRaise
    let rest := runCycles webhookUrl r.state is
    (rest.1, r :: rest.2)

/-- The API's behaviour on one iteration of the `login_vrchat` retry loop:
the status of `GET /auth/user`, whether its 200 body contains the
`requiresTwoFactorAuth` key, and the status of the TOTP verify POST
(consulted only when the first two make the code reach it). -/
structure AttemptEnv where
  loginStatus : Nat
  requires2FA : Bool
  verifyStatus : Nat
  deriving DecidableEq, Repr

/-- The outbound network calls `login_vrchat` can make. -/
inductive NetCall where
  | loginGet
  | totpVerify
  deriving DecidableEq, Repr

/-- What a call to `login_vrchat` did: its return or raised exception
message, the value of the global `vrc_client` afterwards, the network
calls issued in order, and the `asyncio.sleep` durations in order. -/
structure LoginResult where
  outcome : Except String Session
  cached : Option Session
  calls : List NetCall
  waits : List Nat
  deriving Repr

/-- Outcome of the `for attempt in range(max_retries)` loop body chain:
either a `return client` (the session tagged by the attempt index that
created it) or falling through to the `raise`. -/
inductive LoopOut where
  | success (sess : Session)
  | failed
  deriving DecidableEq, Repr

/-- The retry loop of `login_vrchat` (src/main.py lines 34-72), with
`r` remaining iterations and `a` the current `attempt` index.  A 200 login
without 2FA, or a 200 TOTP verify, returns the session; a 429 verify
sleeps `2 ** attempt` and continues; any other response breaks out. -/
def loginLoop (envs : Nat → AttemptEnv) : Nat → Nat → LoopOut × List NetCall × List Nat
  | 0, _ => (LoopOut.failed, [], [])
  | r + 1, a =>
    let env := envs a
    if env.loginStatus = 200 then
      if env.requires2FA then
        if env.verifyStatus = 200 then
          (LoopOut.success a, [NetCall.loginGet, NetCall.totpVerify], [])
        else if env.verifyStatus = 429 then
          let rest := loginLoop envs r (a + 1)
          (rest.1, NetCall.loginGet :: NetCall.totpVerify :: rest.2.1,
           2 ^ a :: rest.2.2)
        else
          (LoopOut.failed, [NetCall.loginGet, NetCall.totpVerify], [])
      else
        (LoopOut.success a, [NetCall.loginGet], [])
    else
      (LoopOut.failed, [NetCall.loginGet], [])

/-- Message of the exception raised when the login loop fails
(src/main.py line 74). -/
def loginFailureMsg : String := "❌ 2FA認証失敗またはログイン不能（リトライ上限）"

/-- `login_vrchat` (src/main.py lines 28-74).  `cached` is the global
`vrc_client` on entry: when set it is returned at once with no network
calls; otherwise the retry loop runs, and `vrc_client` is written only on
success. -/
def login_vrchat (cached : Option Session) (envs : Nat → AttemptEnv)
    (maxRetries : Nat) : LoginResult :=
  match cached with
  | some c => ⟨Except.ok c, some c, [], []⟩
  | none =>
    let r := loginLoop envs maxRetries 0
    match r.1 with
    | LoopOut.success s => ⟨Except.ok s, some s, r.2.1, r.2.2⟩
    | LoopOut.failed => ⟨Except.error loginFailureMsg, none, r.2.1, r.2.2⟩

/-- The API's behaviour for one activation (recursion depth) of
`get_group_instances`: the login-loop environment for the `login_vrchat`
call it starts with, then the status of `GET /groups/{GROUP_ID}/instances`,
its parsed array body when 200, and `res.json().get("error", {}).get("message")`
otherwise (`none` when the response carries no such message). -/
structure FetchEnv where
  loginEnv : Nat → AttemptEnv
  instStatus : Nat
  body : List GroupInstance
  errorMessage : Option String

/-- Result of `get_group_instances`: a parsed instance list, a raised
exception message, or `diverged` when the recursion on 401 exceeded the
available call-stack fuel without terminating. -/
inductive GgiOut where
  | ok (instances : List GroupInstance)
  | raised (msg : String)
  | diverged
  deriving DecidableEq, Repr

/-- Message of the exception raised on a non-200, non-401 instances
response (src/main.py lines 97-98): the Japanese prefix followed by the
server-reported message, defaulting to "Unknown error". -/
def fetchFailureMsg (serverMsg : Option String) : String :=
  "インスタンス取得失敗: " ++ serverMsg.getD "Unknown error"

/-- `get_group_instances` (src/main.py lines 79-100), with explicit fuel
for the self-recursion on 401.  `d` is the recursion depth (selects this
activation's environment), `cached` the global `vrc_client` on entry.  On
401 the code sets `vrc_client = None` and recurses; the
`except Exception as e: raise e` wrapper re-raises unchanged. -/
def get_group_instances (envs : Nat → FetchEnv) :
    Nat → Nat → Option Session → GgiOut × Option Session
  | 0, _, cached => (GgiOut.diverged, cached)
  | f + 1, d, cached =>
    let env := envs d
    let lr := login_vrchat cached env.loginEnv 5
    match lr.outcome with
    | Except.error m => (GgiOut.raised m, lr.cached)
    | Except.ok _ =>
      if env.instStatus = 401 then
        get_group_instances envs f (d + 1) none
      else if env.instStatus = 200 then
        (GgiOut.ok env.body, lr.cached)
      else
        (GgiOut.raised (fetchFailureMsg env.errorMessage), lr.cached)

/-- The hard-coded fake record sent by the `/test-notification` endpoint
(src/main.py lines 170-180); `memberCount` is `random.randint(1, 10)`. -/
def fakeInstance (memberCount : Int) : GroupInstance :=
  { instanceId := "test123"
    location := some "wrld_test:test123"
    memberCount := some memberCount
    world := some
      { name := some "テストワールド"
        id := some "wrld_test"
        authorName := some "tester"
        thumbnailImageUrl := some "https://upload.wikimedia.org/wikipedia/commons/thumb/e/ec/VR_icon.svg/1024px-VR_icon.svg.png" } }

/-- The `/test-notification` endpoint (src/main.py lines 168-182): it calls
`notify_discord` on the fake record and returns a fixed message.  It never
touches the global `last_instance_id`, which is threaded through unchanged
as the first component. -/
def test_notification (webhookUrl : Option String) (last : Option String)
    (memberCount : Int) (color : Nat) (deliveryRaise : Option String) :
    Option String × NotifyOutcome × String :=
  (last,
   notify_discord webhookUrl (fakeInstance memberCount) color deliveryRaise,
   "テストメッセージを送信しました")

/-- The instance id carried by the head record of a fetch result, when the
result is a non-empty list; this is the `current_id` a tick would compute. -/
def headId : FetchOutcome → Option String
  | FetchOutcome.ok (inst :: _) => some inst.instanceId
  | _ => none

/-- A minimal record with instance id "A" (test fixture). -/
def instA : GroupInstance := { instanceId := "A" }

/-- A minimal record with instance id "B" (test fixture). -/
def instB : GroupInstance := { instanceId := "B" }

/-- Tick environment: fetch returns `[instA]`, delivery succeeds. -/
def tickA : CycleInput := ⟨FetchOutcome.ok [instA], 0, none⟩

/-- Tick environment: fetch returns `[instB]`, delivery succeeds. -/
def tickB : CycleInput := ⟨FetchOutcome.ok [instB], 0, none⟩

/-- API environment in which every login GET returns 200 requiring 2FA and
every TOTP verify returns 429 (a persistent rate limit). -/
def persistent429 : Nat → AttemptEnv := fun _ => ⟨200, true, 429⟩

/-- Login environment in which the first login GET returns 200 and the
account needs no 2FA: authentication succeeds immediately. -/
def loginAlwaysOk : Nat → AttemptEnv := fun _ => ⟨200, false, 0⟩

/-- Fetch environment in which every authentication succeeds immediately
but every `GET /groups/{GROUP_ID}/instances` returns 401: the API
persistently rejects even freshly minted sessions. -/
def persistent401 : Nat → FetchEnv :=
  fun _ => { loginEnv := loginAlwaysOk, instStatus := 401, body := [],
             errorMessage := none }

/-- Fetch environment in which authentication succeeds and the instances
endpoint returns a 500 whose body carries no `error.message`. -/
def fetch500NoMsg : Nat → FetchEnv :=
  fun _ => { loginEnv := loginAlwaysOk, instStatus := 500, body := [],
             errorMessage := none }

/-! ## Theorems -/

/-- C4: if a cached session exists, `login_vrchat` returns that cached
handle immediately, leaves the cache untouched, and performs zero network
calls (no login GET, no TOTP POST) and zero waits, for every API
environment and retry budget. -/
theorem cached_session_returned_without_network (c : Session)
    (envs : Nat → AttemptEnv) (maxRetries : Nat) :
    login_vrchat (some c) envs maxRetries =
      ⟨Except.ok c, some c, [], []⟩ := rfl

/-- C5: a poll tick whose fetch succeeds with an empty session list sends
no notification (no webhook POST), logs "no instances", and leaves
`last_instance_id` exactly as it was, for every prior state, webhook
configuration, colour and delivery environment. -/
theorem empty_fetch_is_noop (webhookUrl : Option String)
    (last : Option String) (color : Nat) (dr : Option String) :
    startup_event webhookUrl last (FetchOutcome.ok []) color dr =
      ⟨last, CycleLog.noInstances, none⟩ := rfl

/-- C7: with the webhook URL unset (or empty), `notify_discord` is a no-op
making zero outbound calls, and the poll tick still completes the success
path: it marks `last_instance_id` with the new record's instance id and
logs the "notified" line rather than raising. -/
theorem no_webhook_noop_still_marks (url : Option String)
    (last : Option String) (inst : GroupInstance)
    (rest : List GroupInstance) (color : Nat) (dr : Option String)
    (hurl : webhookFalsy url = true) (hnew : last ≠ some inst.instanceId) :
    notify_discord url inst color dr = NotifyOutcome.skippedNoWebhook ∧
    startup_event url last (FetchOutcome.ok (inst :: rest)) color dr =
      ⟨some inst.instanceId, CycleLog.notified, none⟩ := by
  have hcond : some inst.instanceId ≠ last := fun h => hnew h.symm
  constructor
  · simp [notify_discord, hurl]
  · simp [startup_event, notify_discord, hurl, hcond]

/-- Witness for C7 at a concrete input: webhook unset, fresh state,
fetch returns `[instA]`. -/
theorem no_webhook_noop_still_marks_witness :
    notify_discord none instA 0 none = NotifyOutcome.skippedNoWebhook ∧
    startup_event none none (FetchOutcome.ok [instA]) 0 none =
      ⟨some instA.instanceId, CycleLog.notified, none⟩ :=
  no_webhook_noop_still_marks none none instA [] 0 none rfl (by decide)

/-- C1 counterexample: with a configured webhook and a fresh state, a tick
whose fetch returns `[instA]` and whose webhook POST raises a network error
does attempt the notification (the POST is made), yet `last_instance_id`
is NOT set to the attempted record's instance id — it stays `none`, so the
claim that dedup state is updated despite the delivery failure is false. -/
theorem delivery_failure_dedup_cex :
    (startup_event (some "https://discord.example/webhook") none
        (FetchOutcome.ok [instA]) 0 (some "connect error")).posted.isSome
      = true ∧
    (startup_event (some "https://discord.example/webhook") none
        (FetchOutcome.ok [instA]) 0 (some "connect error")).state ≠
      some instA.instanceId := by
  refine ⟨rfl, ?_⟩
  intro h
  exact Option.noConfusion h

/-- C1 amended: when the webhook POST raises a network error, the dedup
state is NOT updated — the exception propagates past the
`last_instance_id = current_id` assignment into the tick's `except`
handler, so `last_instance_id` keeps its prior value, the tick logs the
caught error, and the same record is re-notified by the next tick whose
delivery succeeds. -/
theorem delivery_failure_leaves_dedup (url : Option String)
    (last : Option String) (inst : GroupInstance)
    (rest : List GroupInstance) (color : Nat) (emsg : String)
    (hurl : webhookFalsy url = false) :
    (startup_event url last (FetchOutcome.ok (inst :: rest)) color
        (some emsg)).state = last ∧
    (last ≠ some inst.instanceId →
      startup_event url last (FetchOutcome.ok (inst :: rest)) color
          (some emsg) =
        ⟨last, CycleLog.errorCaught emsg, some (buildEmbed inst color)⟩ ∧
      startup_event url last (FetchOutcome.ok (inst :: rest)) color none =
        ⟨some inst.instanceId, CycleLog.notified,
         some (buildEmbed inst color)⟩) := by
  by_cases h : last = some inst.instanceId
  · constructor
    · simp [startup_event, h]
    · intro hnew
      exact absurd h hnew
  · have hcond : some inst.instanceId ≠ last := fun hh => h hh.symm
    constructor
    · simp [startup_event, notify_discord, hurl, hcond]
    · intro _
      constructor
      · simp [startup_event, notify_discord, hurl, hcond]
      · simp [startup_event, notify_discord, hurl, hcond]

/-- Witness for C1's amended theorem at a concrete input: configured
webhook, fresh state, fetch returns `[instA]`, POST raises. -/
theorem delivery_failure_leaves_dedup_witness :
    (startup_event (some "w") none (FetchOutcome.ok [instA]) 0
        (some "boom")).state = none :=
  (delivery_failure_leaves_dedup (some "w") none instA [] 0 "boom"
    (by decide)).1

/-- C6: a record is treated as new iff its instance id differs from
`last_instance_id` — in particular any record is new against the initial
empty state, since `none` differs from every `some` — and the concrete
A-then-B run posts twice with distinct payloads and ends with
`last_instance_id = "B"`. -/
theorem new_iff_id_differs (url : Option String) (last : Option String)
    (inst : GroupInstance) (rest : List GroupInstance) (color : Nat)
    (hurl : webhookFalsy url = false) :
    (last ≠ some inst.instanceId →
      startup_event url last (FetchOutcome.ok (inst :: rest)) color none =
        ⟨some inst.instanceId, CycleLog.notified,
         some (buildEmbed inst color)⟩) ∧
    (last = some inst.instanceId →
      startup_event url last (FetchOutcome.ok (inst :: rest)) color none =
        ⟨last, CycleLog.noChange, none⟩) ∧
    (runCycles (some "w") none [tickA, tickB]).2.map CycleResult.posted =
      [some (buildEmbed instA 0), some (buildEmbed instB 0)] ∧
    (runCycles (some "w") none [tickA, tickB]).1 = some "B" ∧
    buildEmbed instA 0 ≠ buildEmbed instB 0 := by
  refine ⟨?_, ?_, by decide, by decide, by decide⟩
  · intro hnew
    have hcond : some inst.instanceId ≠ last := fun h => hnew h.symm
    simp [startup_event, notify_discord, hurl, hcond]
  · intro heq
    simp [startup_event, heq]

/-- Witness for C6 at a concrete input: configured webhook, fresh state,
fetch returns `[instA]`. -/
theorem new_iff_id_differs_witness :
    startup_event (some "w") none (FetchOutcome.ok [instA]) 0 none =
      ⟨some instA.instanceId, CycleLog.notified, some (buildEmbed instA 0)⟩ :=
  (new_iff_id_differs (some "w") none instA [] 0 (by decide)).1 (by decide)

/-- Helper: once `last_instance_id` already equals the constant head id
of every fetch, each further tick takes the "no change" branch, posts
nothing, and leaves the state at that id. -/
theorem runCycles_steady (url : Option String) (c : String) :
    ∀ inputs : List CycleInput,
      (∀ i ∈ inputs, headId i.fetch = some c) →
      runCycles url (some c) inputs =
        (some c, inputs.map fun _ => ⟨some c, CycleLog.noChange, none⟩) := by
  intro inputs
  induction inputs with
  | nil => intro _; rfl
  | cons i is ih =>
    intro h
    have hi := h i (List.mem_cons_self i is)
    have hrest : ∀ j ∈ is, headId j.fetch = some c :=
      fun j hj => h j (List.mem_cons_of_mem i hj)
    cases hfe : i.fetch with
    | raised m => simp [headId, hfe] at hi
    | ok l =>
      cases l with
      | nil => simp [headId, hfe] at hi
      | cons inst r0 =>
        simp [headId, hfe] at hi
        simp [runCycles, startup_event, hfe, hi, ih hrest]

/-- C3: starting from the fresh state, a run of ticks whose fetches all
return a non-empty list headed by the same instance id `c`, with the
webhook configured and every delivery succeeding, posts exactly one
notification — on the first tick — and every later tick posts nothing and
logs "no change". -/
theorem constant_id_single_notification (url : Option String) (c : String)
    (i0 : CycleInput) (rest : List CycleInput)
    (hurl : webhookFalsy url = false)
    (hc : ∀ i ∈ i0 :: rest,
      i.deliveryRaise = none ∧ headId i.fetch = some c) :
    (runCycles url none (i0 :: rest)).1 = some c ∧
    (runCycles url none (i0 :: rest)).2.map CycleResult.log =
      CycleLog.notified :: rest.map (fun _ => CycleLog.noChange) ∧
    (runCycles url none (i0 :: rest)).2.map (fun r => r.posted.isSome) =
      true :: rest.map (fun _ => false) ∧
    (runCycles url none (i0 :: rest)).2.countP
      (fun r => r.posted.isSome) = 1 := by
  obtain ⟨hdr, hhead⟩ := hc i0 (List.mem_cons_self i0 rest)
  have hrest : ∀ j ∈ rest, headId j.fetch = some c :=
    fun j hj => (hc j (List.mem_cons_of_mem i0 hj)).2
  cases hfe : i0.fetch with
  | raised m => simp [headId, hfe] at hhead
  | ok l =>
    cases l with
    | nil => simp [headId, hfe] at hhead
    | cons inst r0 =>
      simp [headId, hfe] at hhead
      have hrun : runCycles url none (i0 :: rest) =
          (some c,
           CycleResult.mk (some c) CycleLog.notified
               (some (buildEmbed inst i0.color)) ::
             rest.map fun _ => ⟨some c, CycleLog.noChange, none⟩) := by
        simp [runCycles, startup_event, notify_discord, hfe, hdr, hurl,
          hhead, runCycles_steady url c rest hrest]
      rw [hrun]
      have h0 : (rest.map fun _ =>
          (⟨some c, CycleLog.noChange, none⟩ : CycleResult)).countP
            (fun r => r.posted.isSome) = 0 := by
        rw [List.countP_eq_zero]
        intro a ha
        obtain ⟨j, _, rfl⟩ := List.mem_map.mp ha
        simp
      refine ⟨rfl, by simp, by simp, ?_⟩
      simp [List.countP_cons, h0]

/-- Witness for C3 at a concrete input: two ticks both fetching `[instA]`
with a configured webhook and successful delivery post exactly once. -/
theorem constant_id_single_notification_witness :
    (runCycles (some "w") none [tickA, tickA]).2.countP
      (fun r => r.posted.isSome) = 1 :=
  (constant_id_single_notification (some "w") "A" tickA [tickA] (by decide)
    (by decide)).2.2.2

/-- Helper: under a persistent TOTP rate limit, each of the `r` remaining
loop iterations performs the full login GET + TOTP POST pair and sleeps
`2 ^ attempt`, and the loop ends by falling through to the raise. -/
theorem loginLoop_persistent429 (r a : Nat) :
    loginLoop persistent429 r a =
      (LoopOut.failed,
       (List.replicate r [NetCall.loginGet, NetCall.totpVerify]).flatten,
       (List.range' a r).map fun k => 2 ^ k) := by
  induction r generalizing a with
  | zero => rfl
  | succ r ih =>
    simp [loginLoop, persistent429, ih, List.range'_succ,
      List.replicate_succ]

/-- C8: under a persistent 429 on the TOTP verify, for every retry budget
`m` (default 5 in the source): authentication fails with the raised login
failure message, no session is cached, every one of the `m` iterations
re-runs the full login GET + TOTP POST sequence, and the wait before the
(n+1)-th iteration is exactly `2 ^ n` seconds — so the n-th retry
(1-indexed) waits `2 ^ (n-1)` time units. -/
theorem rate_limited_totp_backoff (m : Nat) :
    (login_vrchat none persistent429 m).outcome =
      Except.error loginFailureMsg ∧
    (login_vrchat none persistent429 m).cached = none ∧
    (login_vrchat none persistent429 m).calls =
      (List.replicate m [NetCall.loginGet, NetCall.totpVerify]).flatten ∧
    (login_vrchat none persistent429 m).waits =
      (List.range m).map (fun k => 2 ^ k) ∧
    ∀ n, n < m →
      (login_vrchat none persistent429 m).waits[n]? = some (2 ^ n) := by
  have hl : login_vrchat none persistent429 m =
      ⟨Except.error loginFailureMsg, none,
       (List.replicate m [NetCall.loginGet, NetCall.totpVerify]).flatten,
       (List.range' 0 m).map fun k => 2 ^ k⟩ := by
    simp [login_vrchat, loginLoop_persistent429 m 0]
  rw [hl]
  refine ⟨rfl, rfl, rfl, by rw [List.range_eq_range'], ?_⟩
  intro n hn
  rw [← List.range_eq_range', List.getElem?_map, List.getElem?_range hn]
  rfl

/-- Witness for C8 at the source's default budget of 5: the third
iteration (second retry) was preceded by a wait of `2 ^ 2` seconds. -/
theorem rate_limited_totp_backoff_witness :
    (login_vrchat none persistent429 5).waits[2]? = some (2 ^ 2) :=
  (rate_limited_totp_backoff 5).2.2.2.2 2 (by decide)

/-- C2 (divergence of the code): when the API persistently answers the
instances GET with 401 while every re-authentication succeeds,
`get_group_instances` never terminates — for every call-stack budget and
every starting cache it exhausts the budget still recursing, instead of
failing with an AuthError after one re-authentication. -/
theorem persistent_401_never_terminates (fuel : Nat) :
    ∀ (d : Nat) (cached : Option Session),
      (get_group_instances persistent401 fuel d cached).1 =
        GgiOut.diverged := by
  induction fuel with
  | zero => intro d cached; rfl
  | succ f ih =>
    intro d cached
    cases cached with
    | none =>
      simpa [get_group_instances, persistent401, login_vrchat, loginLoop,
        loginAlwaysOk] using ih (d + 1) none
    | some s =>
      simpa [get_group_instances, persistent401, login_vrchat]
        using ih (d + 1) none

/-- C9 counterexample: when the instances endpoint answers 500 with no
`error.message` in the body, the raised message is
"インスタンス取得失敗: Unknown error" — not the literal "unknown" the
claim states for the missing-message case. -/
theorem fetch_error_unknown_cex :
    (get_group_instances fetch500NoMsg 1 0 none).1 =
      GgiOut.raised "インスタンス取得失敗: Unknown error" ∧
    "インスタンス取得失敗: Unknown error" ≠ "unknown" := by
  refine ⟨rfl, by decide⟩

/-- C9 amended: when login succeeds and the instances response status is
neither 200 nor 401, `get_group_instances` raises an exception whose
message is the prefix "インスタンス取得失敗: " followed by the
server-reported `error.message`, or by "Unknown error" when the response
carries no such message. -/
theorem fetch_error_message (envs : Nat → FetchEnv) (fuel d : Nat)
    (cached : Option Session) (sess : Session)
    (hl : (login_vrchat cached (envs d).loginEnv 5).outcome =
      Except.ok sess)
    (h401 : (envs d).instStatus ≠ 401) (h200 : (envs d).instStatus ≠ 200) :
    (get_group_instances envs (fuel + 1) d cached).1 =
      GgiOut.raised ("インスタンス取得失敗: " ++
        (envs d).errorMessage.getD "Unknown error") := by
  simp [get_group_instances, hl, fetchFailureMsg, h401, h200]

/-- Witness for C9's amended theorem at a concrete input: login succeeds,
the instances endpoint answers 500 with no server message. -/
theorem fetch_error_message_witness :
    (get_group_instances fetch500NoMsg 1 0 none).1 =
      GgiOut.raised ("インスタンス取得失敗: " ++
        (fetch500NoMsg 0).errorMessage.getD "Unknown error") :=
  fetch_error_message fetch500NoMsg 0 0 none 0 rfl (by decide) (by decide)

/-- C10: the notifier path never writes the dedup state — the
`/test-notification` endpoint returns `last_instance_id` unchanged for
every input — so a subsequent scheduled tick whose latest record carries
an id different from that (unchanged) state, in particular "test123"
itself after a test notification from a state that never notified it,
still takes the notify branch and then marks the id. -/
theorem notifier_never_writes_dedup (url url2 : Option String)
    (last : Option String) (mc : Int) (color c2 : Nat) (dr : Option String)
    (inst : GroupInstance) (rest : List GroupInstance)
    (hnew : last ≠ some inst.instanceId) :
    (test_notification url last mc color dr).1 = last ∧
    (startup_event url2 (test_notification url last mc color dr).1
        (FetchOutcome.ok (inst :: rest)) c2 none).log =
      CycleLog.notified ∧
    (startup_event url2 (test_notification url last mc color dr).1
        (FetchOutcome.ok (inst :: rest)) c2 none).state =
      some inst.instanceId := by
  have hcond : some inst.instanceId ≠ last := fun h => hnew h.symm
  refine ⟨rfl, ?_, ?_⟩ <;>
    cases hw : webhookFalsy url2 <;>
      simp [test_notification, startup_event, notify_discord, hw, hcond]

/-- Witness for C10 at a concrete input: a test notification for
"test123" from the fresh state, followed by a scheduled tick whose latest
record is the same fake instance, still notifies and marks it. -/
theorem notifier_never_writes_dedup_witness :
    (test_notification none none 5 0 none).1 = none ∧
    (startup_event (some "w") (test_notification none none 5 0 none).1
        (FetchOutcome.ok [fakeInstance 5]) 0 none).log =
      CycleLog.notified ∧
    (startup_event (some "w") (test_notification none none 5 0 none).1
        (FetchOutcome.ok [fakeInstance 5]) 0 none).state =
      some (fakeInstance 5).instanceId :=
  notifier_never_writes_dedup none (some "w") none 5 0 0 none
    (fakeInstance 5) [] (by decide)

end VrcNotifier
